import Mathlib

/-!
Shallow embedding of `custom_components/smartir/fan.py` (class `SmartIRFan`).

The device profile is the JSON command table loaded at setup: an ordered speed
list plus a `commands` mapping.  Per the profile schema, values of `commands`
are either opaque payload strings (the `"off"` and `"oscillate"` entries) or a
one-level table from speed name to payload string (the per-direction entries);
`CmdVal` captures both shapes.  Python `None` is modelled as `Option.none`,
Python exceptions that escape a handler as a `raised` flag on the operation
result (the state at that point is the partially mutated one, exactly as the
interpreter leaves it), calls to `async_write_ha_state` as a `writes` counter,
commands passed to `self._controller.send` as a `sent` list, and the
`_LOGGER.exception` call in the `try/except` of `send_command` as a `logged`
counter.  The controller outcome (whether `send` raises) is the `ctrlOk`
parameter threaded through each operation.  Integer percentages from the host
are naturals (the host passes values in `[0, 100]`).
-/

/-- JSON value stored under one key of the profile's `commands` mapping. -/
inductive CmdVal where
  | payload (s : String)
  | table (t : List (String × String))
deriving DecidableEq

/-- The profile's `commands` JSON object, as an association list with the
first binding of a key the visible one (Python dict keys are unique). -/
abbrev CmdTable := List (String × CmdVal)

/-- Python `d[k]` on the `commands` dict: `some` the value, `none` a KeyError. -/
def alookup (m : CmdTable) (k : String) : Option CmdVal :=
  (m.find? (fun e => e.1 == k)).map (fun e => e.2)

/-- Python `d[k]` on a nested per-direction table. -/
def tlookup (t : List (String × String)) (k : String) : Option String :=
  (t.find? (fun e => e.1 == k)).map (fun e => e.2)

/-- Python `str.lower` (ASCII case folding, which covers the profile data). -/
def strLower (s : String) : String := String.mk (s.data.map Char.toLower)

/-- The mutable fields of `SmartIRFan`.  `speed = none` models `self._speed = None`
(set by a remote power-on); `speed = some "off"` is the `SPEED_OFF` sentinel. -/
structure FanState where
  speed : Option String
  direction : Option String
  lastOnSpeed : Option String
  oscillating : Option Bool
  onByRemote : Bool
deriving DecidableEq

/-- Observable outcome of running one operation on the fan. -/
structure OpResult where
  state : FanState
  sent : List CmdVal
  writes : Nat
  logged : Nat
  raised : Bool
deriving DecidableEq

/-- Python `list.index(x)`: index of the first occurrence, `none` a ValueError. -/
def listIndex : List String → String → Option Nat
  | [], _ => none
  | a :: as, x => if a = x then some 0 else (listIndex as x).map (fun i => i + 1)

/-- Python `list[-1]` of a non-empty list. -/
def listLast : List String → Option String
  | [] => none
  | [a] => some a
  | _ :: b :: t => listLast (b :: t)

/-- Modelled from the spec: host helper `ordered_list_item_to_percentage`
(host-platform code, not part of this repository) — the bucketed conversion of
section 4.2: the item's 1-based position (first occurrence) scaled to its
bucket's upper percentage bound by integer division; `none` is the ValueError
raised when the item is absent. -/
def ordered_list_item_to_percentage (l : List String) (item : String) : Option Nat :=
  match listIndex l item with
  | none => none
  | some i => some ((i + 1) * 100 / l.length)

/-- The scan inside `percentage_to_ordered_list_item`: first element whose
1-based position `j` satisfies `p ≤ j * 100 / n`, scanning from position `i + 1`. -/
def bucketFind (n p : Nat) : List String → Nat → Option String
  | [], _ => none
  | x :: xs, i => if p ≤ ((i + 1) * 100) / n then some x else bucketFind n p xs (i + 1)

/-- Modelled from the spec: host helper `percentage_to_ordered_list_item`
(host-platform code, not part of this repository) — the inverse bucketed
conversion of section 4.2: the first item whose bucket upper bound reaches
`p`, falling back to the last item; `none` is the ValueError raised on an
empty list. -/
def percentage_to_ordered_list_item (l : List String) (p : Nat) : Option String :=
  match l with
  | [] => none
  | _ :: _ =>
    match bucketFind l.length p l 0 with
    | some x => some x
    | none => listLast l

/-- Python `self._direction or "default"`: `None` and the empty string are falsy. -/
def pyDirection : Option String → String
  | none => "default"
  | some d => if d = "" then "default" else d

/-- Python `a or b` for optional strings (`None` and `""` are falsy). -/
def pyOrStr (o : Option String) (dflt : Option String) : Option String :=
  match o with
  | none => dflt
  | some l => if l = "" then dflt else some l

/-- Lookup `self._commands[d][speed]`: `none` covers both the KeyError of a
missing key and the TypeError of indexing a payload string. -/
def nested_lookup (cmds : CmdTable) (d sp : String) : Option CmdVal :=
  match alookup cmds d with
  | some (CmdVal.table t) => (tlookup t sp).map CmdVal.payload
  | _ => none

/-- The command-selection branching of `SmartIRFan.send_command` (the body of
the `async with` block before the `try`): off sentinel first, then the
oscillation flag, then the direction/speed table.  `none` is an uncaught
exception (`None.lower()`, or a failed lookup). -/
def resolve_command (cmds : CmdTable) (s : FanState) : Option CmdVal :=
  match s.speed with
  | none => none
  | some sp =>
    if strLower sp = "off" then alookup cmds "off"
    else if s.oscillating = some true then alookup cmds "oscillate"
    else nested_lookup cmds (pyDirection s.direction) sp

/-- `SmartIRFan.send_command`: clears `_on_by_remote`, resolves the command,
and attempts the controller send; a controller error is logged and swallowed,
a resolution error propagates. -/
def send_command (cmds : CmdTable) (ctrlOk : Bool) (s : FanState) : OpResult :=
  match resolve_command cmds { s with onByRemote := false } with
  | none =>
    { state := { s with onByRemote := false }, sent := [], writes := 0, logged := 0,
      raised := true }
  | some c =>
    { state := { s with onByRemote := false }, sent := [c], writes := 0,
      logged := if ctrlOk then 0 else 1, raised := false }

/-- The `percentage` property: `0` at the off sentinel, otherwise the host
conversion of the current speed; `none` is the ValueError raised when the
current speed (for example `None`) is not in the list. -/
def percentage (speeds : List String) (s : FanState) : Option Nat :=
  match s.speed with
  | none => none
  | some sp => if sp = "off" then some 0 else ordered_list_item_to_percentage speeds sp

/-- `SmartIRFan.async_set_percentage`: pick the new speed (off sentinel at 0),
record a non-off speed as `_last_on_speed`, send, then write state. -/
def async_set_percentage (cmds : CmdTable) (speeds : List String) (ctrlOk : Bool)
    (s : FanState) (p : Nat) : OpResult :=
  match (if p = 0 then some "off" else percentage_to_ordered_list_item speeds p) with
  | none => { state := s, sent := [], writes := 0, logged := 0, raised := true }
  | some nm =>
    let s2 : FanState :=
      if nm = "off" then { s with speed := some nm }
      else { s with speed := some nm, lastOnSpeed := some nm }
    let r := send_command cmds ctrlOk s2
    if r.raised then r else { r with writes := r.writes + 1 }

/-- `SmartIRFan.async_oscillate`: set the flag, send, write state. -/
def async_oscillate (cmds : CmdTable) (ctrlOk : Bool) (s : FanState) (b : Bool) : OpResult :=
  let r := send_command cmds ctrlOk { s with oscillating := some b }
  if r.raised then r else { r with writes := r.writes + 1 }

/-- `SmartIRFan.async_set_direction`: set the direction, send only when the
lowercased current speed is not the off sentinel, then write state
(`None.lower()` raises before either). -/
def async_set_direction (cmds : CmdTable) (ctrlOk : Bool) (s : FanState) (d : String) :
    OpResult :=
  let s1 : FanState := { s with direction := some d }
  match s1.speed with
  | none => { state := s1, sent := [], writes := 0, logged := 0, raised := true }
  | some sp =>
    if strLower sp = "off" then
      { state := s1, sent := [], writes := 1, logged := 0, raised := false }
    else
      let r := send_command cmds ctrlOk s1
      if r.raised then r else { r with writes := r.writes + 1 }

/-- `SmartIRFan.async_turn_on`: default the percentage from
`self._last_on_speed or self._speed_list[0]`, then delegate to
`async_set_percentage` (an empty list or an unknown item raises first). -/
def async_turn_on (cmds : CmdTable) (speeds : List String) (ctrlOk : Bool)
    (s : FanState) (pct : Option Nat) : OpResult :=
  match pct with
  | some p => async_set_percentage cmds speeds ctrlOk s p
  | none =>
    match pyOrStr s.lastOnSpeed speeds.head? with
    | none => { state := s, sent := [], writes := 0, logged := 0, raised := true }
    | some item =>
      match ordered_list_item_to_percentage speeds item with
      | none => { state := s, sent := [], writes := 0, logged := 0, raised := true }
      | some p => async_set_percentage cmds speeds ctrlOk s p

/-- `SmartIRFan.async_turn_off` is `async_set_percentage(0)`. -/
def async_turn_off (cmds : CmdTable) (speeds : List String) (ctrlOk : Bool)
    (s : FanState) : OpResult :=
  async_set_percentage cmds speeds ctrlOk s 0

/-- `SmartIRFan._async_power_sensor_changed`: the event carries the sensor's
old and new state strings (`none` when the corresponding state object is
`None`).  A missing new state or an unchanged reported state is a no-op;
ON while the local speed is the off sentinel flags `_on_by_remote` and makes
the speed `None`; OFF clears the flag and forces the off sentinel. -/
def async_power_sensor_changed (s : FanState) (old new : Option String) : OpResult :=
  match new with
  | none => { state := s, sent := [], writes := 0, logged := 0, raised := false }
  | some n =>
    if old = some n then
      { state := s, sent := [], writes := 0, logged := 0, raised := false }
    else
      let q : FanState × Nat :=
        if n = "on" ∧ s.speed = some "off" then
          ({ s with onByRemote := true, speed := none }, 1)
        else (s, 0)
      if n = "off" then
        let s2 : FanState :=
          { q.1 with
            onByRemote := false
            speed := if q.1.speed = some "off" then q.1.speed else some "off" }
        { state := s2, sent := [], writes := q.2 + 1, logged := 0, raised := false }
      else
        { state := q.1, sent := [], writes := q.2, logged := 0, raised := false }

/-- Direction support of `__init__`: both reversed-direction keys present. -/
def supportsDirection (cmds : CmdTable) : Bool :=
  (alookup cmds "reverse").isSome && (alookup cmds "forward").isSome

/-- Oscillation support of `__init__`: an `"oscillate"` key present. -/
def supportsOscillate (cmds : CmdTable) : Bool :=
  (alookup cmds "oscillate").isSome

/-- The state built by `SmartIRFan.__init__`. -/
def initState (cmds : CmdTable) : FanState :=
  { speed := some "off"
    direction := if supportsDirection cmds then some "reverse" else none
    lastOnSpeed := none
    oscillating := if supportsOscillate cmds then some false else none
    onByRemote := false }

/-- Attributes offered by the host's restore step; the outer option is key
presence, the inner one the stored value (which may itself be `None`). -/
structure RestoredAttrs where
  speed : Option (Option String)
  direction : Option (Option String)
  lastOnSpeed : Option (Option String)

/-- The restore part of `SmartIRFan.async_added_to_hass`: copy each persisted
attribute that is present, the direction only when the support flag is set. -/
def async_added_to_hass (cmds : CmdTable) (s : FanState) (last : Option RestoredAttrs) :
    FanState :=
  match last with
  | none => s
  | some a =>
    let s1 := match a.speed with
      | some v => { s with speed := v }
      | none => s
    let s2 := match a.direction with
      | some v => if supportsDirection cmds then { s1 with direction := v } else s1
      | none => s1
    match a.lastOnSpeed with
    | some v => { s2 with lastOnSpeed := v }
    | none => s2

/-- Speed values the data-model invariant allows: `None`, the off sentinel, or
a name from the profile's speed list. -/
def goodSpeed (speeds : List String) (v : Option String) : Prop :=
  v = none ∨ v = some "off" ∨ ∃ x, x ∈ speeds ∧ v = some x

/-- Restored attributes whose persisted speed respects `goodSpeed`. -/
def GoodAttrs (speeds : List String) (a : RestoredAttrs) : Prop :=
  match a.speed with
  | some v => goodSpeed speeds v
  | none => True

/-- States reachable from `__init__` by the entity's operations: restore (of
attributes whose speed is well formed), the five fan commands, and
power-sensor events. -/
inductive Reach (cmds : CmdTable) (speeds : List String) : FanState → Prop where
  | init : Reach cmds speeds (initState cmds)
  | restore : ∀ s a, Reach cmds speeds s → GoodAttrs speeds a →
      Reach cmds speeds (async_added_to_hass cmds s (some a))
  | setPct : ∀ s ok p, Reach cmds speeds s →
      Reach cmds speeds (async_set_percentage cmds speeds ok s p).state
  | osc : ∀ s ok b, Reach cmds speeds s →
      Reach cmds speeds (async_oscillate cmds ok s b).state
  | setDir : ∀ s ok d, Reach cmds speeds s →
      Reach cmds speeds (async_set_direction cmds ok s d).state
  | turnOn : ∀ s ok pct, Reach cmds speeds s →
      Reach cmds speeds (async_turn_on cmds speeds ok s pct).state
  | turnOff : ∀ s ok, Reach cmds speeds s →
      Reach cmds speeds (async_turn_off cmds speeds ok s).state
  | power : ∀ s old new, Reach cmds speeds s →
      Reach cmds speeds (async_power_sensor_changed s old new).state

/-- Concrete three-speed profile used for witnesses and counterexamples
(speed list ["low", "medium", "high"], off and oscillate payloads, a
"default" direction table). -/
def cmds3 : CmdTable :=
  [("off", CmdVal.payload "cmd_off"),
   ("oscillate", CmdVal.payload "cmd_osc"),
   ("default", CmdVal.table [("low", "cmd_low"), ("medium", "cmd_med"), ("high", "cmd_high")])]

/-- The speed list of the concrete three-speed profile. -/
def speeds3 : List String := ["low", "medium", "high"]

/-- A 101-entry speed list (one "a", one hundred "b"). -/
def speeds101 : List String := "a" :: List.replicate 100 "b"

/-- Build a fan state from its five fields (used for concrete statements). -/
def mkState (sp d lo : Option String) (osc : Option Bool) (rem : Bool) : FanState :=
  { speed := sp, direction := d, lastOnSpeed := lo, oscillating := osc, onByRemote := rem }

example : percentage speeds3 (mkState (some "medium") none none none false) = some 66 := by
  decide

example : percentage_to_ordered_list_item speeds3 50 = some "medium" := by decide

example : percentage_to_ordered_list_item speeds3 100 = some "high" := by decide

example : (send_command cmds3 true (initState cmds3)).sent = [CmdVal.payload "cmd_off"] := by
  decide

example : percentage speeds101 (mkState (some "a") none none none false) = some 0 := by decide

/-! Basic facts about `send_command` and the write-after-send pattern. -/

theorem resolve_congr (cmds : CmdTable) (s t : FanState) (h1 : s.speed = t.speed)
    (h2 : s.direction = t.direction) (h3 : s.oscillating = t.oscillating) :
    resolve_command cmds s = resolve_command cmds t := by
  unfold resolve_command
  rw [h1, h2, h3]

theorem resolve_drop_remote (cmds : CmdTable) (s : FanState) :
    resolve_command cmds { s with onByRemote := false } = resolve_command cmds s :=
  resolve_congr cmds _ s rfl rfl rfl

theorem send_command_state (cmds : CmdTable) (ok : Bool) (s : FanState) :
    (send_command cmds ok s).state = { s with onByRemote := false } := by
  unfold send_command
  cases h : resolve_command cmds { s with onByRemote := false } <;> simp

theorem send_command_sent (cmds : CmdTable) (ok : Bool) (s : FanState) :
    (send_command cmds ok s).sent = (resolve_command cmds s).toList := by
  unfold send_command
  rw [resolve_drop_remote]
  cases h : resolve_command cmds s <;> simp

theorem send_command_raised (cmds : CmdTable) (ok : Bool) (s : FanState) :
    (send_command cmds ok s).raised = (resolve_command cmds s).isNone := by
  unfold send_command
  rw [resolve_drop_remote]
  cases h : resolve_command cmds s <;> simp

theorem send_command_drop_ok (cmds : CmdTable) (a b : Bool) (s : FanState) :
    (send_command cmds a s).state = (send_command cmds b s).state ∧
    (send_command cmds a s).sent = (send_command cmds b s).sent ∧
    (send_command cmds a s).writes = (send_command cmds b s).writes ∧
    (send_command cmds a s).raised = (send_command cmds b s).raised := by
  unfold send_command
  cases h : resolve_command cmds { s with onByRemote := false } <;> simp

theorem write_after_state (r : OpResult) :
    (if r.raised then r else { r with writes := r.writes + 1 }).state = r.state := by
  split <;> rfl

theorem write_after_sent (r : OpResult) :
    (if r.raised then r else { r with writes := r.writes + 1 }).sent = r.sent := by
  split <;> rfl

theorem write_after_raised (r : OpResult) :
    (if r.raised then r else { r with writes := r.writes + 1 }).raised = r.raised := by
  split <;> simp_all

/-! Membership and first-occurrence facts for the list helpers. -/

theorem listIndex_get : ∀ (l : List String) (x : String) (i : Nat),
    listIndex l x = some i → i < l.length ∧ l[i]? = some x := by
  intro l
  induction l with
  | nil => intro x i h; simp [listIndex] at h
  | cons a as ih =>
    intro x i h
    unfold listIndex at h
    by_cases hax : a = x
    · rw [if_pos hax] at h
      cases h
      simp [hax]
    · rw [if_neg hax] at h
      cases hi : listIndex as x with
      | none => rw [hi] at h; simp at h
      | some j =>
        rw [hi] at h
        simp at h
        obtain ⟨h1, h2⟩ := ih x j hi
        subst h
        constructor
        · simpa using Nat.succ_lt_succ h1
        · simpa using h2

theorem mem_listIndex : ∀ (l : List String) (x : String), x ∈ l →
    ∃ i, listIndex l x = some i := by
  intro l
  induction l with
  | nil => intro x h; simp at h
  | cons a as ih =>
    intro x h
    unfold listIndex
    by_cases hax : a = x
    · exact ⟨0, by rw [if_pos hax]⟩
    · have hx : x ∈ as := by
        cases h with
        | head => exact absurd rfl hax
        | tail _ h2 => exact h2
      obtain ⟨i, hi⟩ := ih x hx
      exact ⟨i + 1, by rw [if_neg hax, hi]; rfl⟩

theorem bucketFind_mem : ∀ (l : List String) (n p i : Nat) (x : String),
    bucketFind n p l i = some x → x ∈ l := by
  intro l
  induction l with
  | nil => intro n p i x h; simp [bucketFind] at h
  | cons a as ih =>
    intro n p i x h
    unfold bucketFind at h
    split at h
    · cases h; exact List.mem_cons_self a as
    · exact List.mem_cons_of_mem a (ih n p (i + 1) x h)

theorem listLast_mem : ∀ (l : List String) (x : String), listLast l = some x → x ∈ l := by
  intro l
  induction l with
  | nil => intro x h; simp [listLast] at h
  | cons a as ih =>
    intro x h
    cases as with
    | nil => cases h; exact List.mem_cons_self _ _
    | cons b t =>
      unfold listLast at h
      exact List.mem_cons_of_mem a (ih x h)

theorem p2item_mem (l : List String) (p : Nat) (x : String)
    (h : percentage_to_ordered_list_item l p = some x) : x ∈ l := by
  unfold percentage_to_ordered_list_item at h
  cases l with
  | nil => simp at h
  | cons a as =>
    cases hb : bucketFind (a :: as).length p (a :: as) 0 with
    | some y => rw [hb] at h; cases h; exact bucketFind_mem _ _ _ _ _ hb
    | none => rw [hb] at h; exact listLast_mem _ _ h

/-! Arithmetic of the bucket bounds `j * 100 / n`. -/

theorem bucket_bound_strict_mono (a b n : Nat) (hab : a < b) (hn100 : n ≤ 100)
    (hn : 0 < n) : a * 100 / n < b * 100 / n := by
  have h1 : a * 100 + n ≤ b * 100 := by omega
  have h2 : (a * 100 + n) / n ≤ b * 100 / n := Nat.div_le_div_right h1
  have h3 : (a * 100 + n) / n = a * 100 / n + 1 := Nat.add_div_right _ hn
  omega

theorem bucket_bound_pos (a n : Nat) (ha : 0 < a) (hn : 0 < n) (hn100 : n ≤ 100) :
    1 ≤ a * 100 / n := by
  have h1 : n ≤ a * 100 := by omega
  have h2 : n / n ≤ a * 100 / n := Nat.div_le_div_right h1
  have h3 : n / n = 1 := Nat.div_self hn
  omega

theorem bucket_bound_top (n : Nat) (hn : 0 < n) : n * 100 / n = 100 :=
  Nat.mul_div_cancel_left 100 hn

/-! The scan of `bucketFind` stops at the first position whose bound reaches `p`. -/

theorem bucketFind_first : ∀ (l : List String) (n p i k : Nat), k < l.length →
    (∀ j, j < k → ¬ p ≤ ((i + j + 1) * 100) / n) →
    p ≤ ((i + k + 1) * 100) / n →
    bucketFind n p l i = l[k]? := by
  intro l
  induction l with
  | nil => intro n p i k hk; simp at hk
  | cons x xs ih =>
    intro n p i k hk hbelow hit
    unfold bucketFind
    cases k with
    | zero =>
      rw [if_pos (by simpa using hit)]
      simp
    | succ k =>
      have h0 : ¬ p ≤ ((i + 1) * 100) / n := by
        have := hbelow 0 (Nat.succ_pos k)
        simpa using this
      rw [if_neg h0]
      have hk' : k < xs.length := by simpa using Nat.lt_of_succ_lt_succ hk
      have hbelow' : ∀ j, j < k → ¬ p ≤ ((i + 1 + j + 1) * 100) / n := by
        intro j hj
        have h := hbelow (j + 1) (by omega)
        have e : i + (j + 1) + 1 = i + 1 + j + 1 := by omega
        rw [e] at h
        exact h
      have hit' : p ≤ ((i + 1 + k + 1) * 100) / n := by
        have e : i + (k + 1) + 1 = i + 1 + k + 1 := by omega
        rw [e] at hit
        exact hit
      rw [ih n p (i + 1) k hk' hbelow' hit']
      simp

/-- At a percentage that is exactly the bucket bound of position `i + 1`, and
with at most 100 buckets, the scan lands exactly on index `i`. -/
theorem bucketFind_at_bound (l : List String) (i : Nat) (hi : i < l.length)
    (hlen : l.length ≤ 100) :
    bucketFind l.length ((i + 1) * 100 / l.length) l 0 = l[i]? := by
  have hn : 0 < l.length := by omega
  apply bucketFind_first l l.length _ 0 i hi
  · intro j hj
    have hlt : (j + 1) * 100 / l.length < (i + 1) * 100 / l.length :=
      bucket_bound_strict_mono (j + 1) (i + 1) l.length (by omega) hlen hn
    simpa using Nat.not_le_of_lt hlt
  · simp

/-- Round trip at the helper level: the percentage assigned to the entry at
index `i` selects index `i` again, and is nonzero, whenever the list has at
most 100 entries. -/
theorem p2item_roundtrip (l : List String) (i : Nat) (hi : i < l.length)
    (hlen : l.length ≤ 100) :
    percentage_to_ordered_list_item l ((i + 1) * 100 / l.length) = l[i]? ∧
    1 ≤ (i + 1) * 100 / l.length := by
  have hn : 0 < l.length := by omega
  have hfind := bucketFind_at_bound l i hi hlen
  constructor
  · cases l with
    | nil => simp at hn
    | cons a as =>
      unfold percentage_to_ordered_list_item
      rw [hfind]
      cases hg : (a :: as)[i]? with
      | none =>
        have : i < (a :: as).length := hi
        rw [List.getElem?_eq_none_iff] at hg
        omega
      | some y => rfl
  · exact bucket_bound_pos (i + 1) l.length (Nat.succ_pos i) hn hlen

/-! Characterizations of the fan operations. -/

theorem o2p_of_mem (l : List String) (x : String) (hx : x ∈ l) :
    ∃ i, listIndex l x = some i ∧ l[i]? = some x ∧ i < l.length ∧
      ordered_list_item_to_percentage l x = some ((i + 1) * 100 / l.length) := by
  obtain ⟨i, hi⟩ := mem_listIndex l x hx
  obtain ⟨hlt, hget⟩ := listIndex_get l x i hi
  refine ⟨i, hi, hget, hlt, ?_⟩
  unfold ordered_list_item_to_percentage
  rw [hi]

theorem asp_state (cmds : CmdTable) (speeds : List String) (ok : Bool) (s : FanState)
    (p : Nat) (nm : String)
    (h : (if p = 0 then some "off" else percentage_to_ordered_list_item speeds p) = some nm) :
    (async_set_percentage cmds speeds ok s p).state =
      if nm = "off" then { s with speed := some nm, onByRemote := false }
      else { s with speed := some nm, lastOnSpeed := some nm, onByRemote := false } := by
  unfold async_set_percentage
  rw [h]
  dsimp only
  rw [write_after_state, send_command_state]
  split <;> rfl

theorem asp_sent (cmds : CmdTable) (speeds : List String) (ok : Bool) (s : FanState)
    (p : Nat) (nm : String)
    (h : (if p = 0 then some "off" else percentage_to_ordered_list_item speeds p) = some nm) :
    (async_set_percentage cmds speeds ok s p).sent =
      (resolve_command cmds { s with speed := some nm }).toList := by
  unfold async_set_percentage
  rw [h]
  dsimp only
  rw [write_after_sent, send_command_sent]
  split
  · rfl
  · rw [resolve_congr cmds { s with speed := some nm, lastOnSpeed := some nm }
      { s with speed := some nm } rfl rfl rfl]

theorem asp_raised (cmds : CmdTable) (speeds : List String) (ok : Bool) (s : FanState)
    (p : Nat) (nm : String)
    (h : (if p = 0 then some "off" else percentage_to_ordered_list_item speeds p) = some nm) :
    (async_set_percentage cmds speeds ok s p).raised =
      (resolve_command cmds { s with speed := some nm }).isNone := by
  unfold async_set_percentage
  rw [h]
  dsimp only
  rw [write_after_raised, send_command_raised]
  split
  · rfl
  · rw [resolve_congr cmds { s with speed := some nm, lastOnSpeed := some nm }
      { s with speed := some nm } rfl rfl rfl]

theorem asp_fail (cmds : CmdTable) (speeds : List String) (ok : Bool) (s : FanState)
    (p : Nat)
    (h : (if p = 0 then some "off" else percentage_to_ordered_list_item speeds p) = none) :
    async_set_percentage cmds speeds ok s p =
      { state := s, sent := [], writes := 0, logged := 0, raised := true } := by
  unfold async_set_percentage
  rw [h]

theorem osc_state (cmds : CmdTable) (ok : Bool) (s : FanState) (b : Bool) :
    (async_oscillate cmds ok s b).state = { s with oscillating := some b, onByRemote := false } := by
  unfold async_oscillate
  dsimp only
  rw [write_after_state, send_command_state]

theorem osc_sent (cmds : CmdTable) (ok : Bool) (s : FanState) (b : Bool) :
    (async_oscillate cmds ok s b).sent =
      (resolve_command cmds { s with oscillating := some b }).toList := by
  unfold async_oscillate
  dsimp only
  rw [write_after_sent, send_command_sent]

theorem setdir_off (cmds : CmdTable) (ok : Bool) (s : FanState) (d : String) (sp : String)
    (h1 : s.speed = some sp) (h2 : strLower sp = "off") :
    async_set_direction cmds ok s d =
      { state := { s with direction := some d }, sent := [], writes := 1, logged := 0,
        raised := false } := by
  unfold async_set_direction
  dsimp only
  have e : ({ s with direction := some d } : FanState).speed = some sp := h1
  rw [e]
  dsimp only
  rw [if_pos h2]

theorem setdir_on_sent (cmds : CmdTable) (ok : Bool) (s : FanState) (d : String) (sp : String)
    (h1 : s.speed = some sp) (h2 : ¬ strLower sp = "off") :
    (async_set_direction cmds ok s d).sent =
      (resolve_command cmds { s with direction := some d }).toList := by
  unfold async_set_direction
  dsimp only
  have e : ({ s with direction := some d } : FanState).speed = some sp := h1
  rw [e]
  dsimp only
  rw [if_neg h2, write_after_sent, send_command_sent]

theorem setdir_state_speed (cmds : CmdTable) (ok : Bool) (s : FanState) (d : String) :
    (async_set_direction cmds ok s d).state.speed = s.speed := by
  unfold async_set_direction
  dsimp only
  cases h : ({ s with direction := some d } : FanState).speed with
  | none => rfl
  | some sp =>
    dsimp only
    split
    · rfl
    · split
      · rw [send_command_state]
      · dsimp only
        rw [send_command_state]

/-! Characterizations of the power-sensor handler. -/

theorem power_new_none (s : FanState) (old : Option String) :
    async_power_sensor_changed s old none =
      { state := s, sent := [], writes := 0, logged := 0, raised := false } := rfl

theorem power_dup (s : FanState) (old : Option String) (n : String) (h : old = some n) :
    async_power_sensor_changed s old (some n) =
      { state := s, sent := [], writes := 0, logged := 0, raised := false } := by
  unfold async_power_sensor_changed
  dsimp only
  rw [if_pos h]

theorem power_on (s : FanState) (old : Option String) (h1 : s.speed = some "off")
    (hold : ¬ old = some "on") :
    async_power_sensor_changed s old (some "on") =
      { state := { s with onByRemote := true, speed := none }, sent := [], writes := 1,
        logged := 0, raised := false } := by
  unfold async_power_sensor_changed
  dsimp only
  rw [if_neg hold]
  rw [if_pos (show ("on" : String) = "on" ∧ s.speed = some "off" from ⟨rfl, h1⟩)]
  rw [if_neg (show ¬ ("on" : String) = "off" by decide)]

theorem power_off (s : FanState) (old : Option String) (hold : ¬ old = some "off") :
    (async_power_sensor_changed s old (some "off")).state =
      { s with speed := some "off", onByRemote := false } ∧
    (async_power_sensor_changed s old (some "off")).writes = 1 ∧
    (async_power_sensor_changed s old (some "off")).sent = [] ∧
    (async_power_sensor_changed s old (some "off")).raised = false := by
  unfold async_power_sensor_changed
  dsimp only
  rw [if_neg hold]
  rw [if_neg (show ¬ (("off" : String) = "on" ∧ s.speed = some "off") by
    rintro ⟨h, _⟩; exact absurd h (by decide))]
  rw [if_pos (show ("off" : String) = "off" from rfl)]
  refine ⟨?_, rfl, rfl, rfl⟩
  by_cases hsp : s.speed = some "off"
  · rw [if_pos hsp, hsp]
  · rw [if_neg hsp]

theorem power_writes_le_one (s : FanState) (old new : Option String) :
    (async_power_sensor_changed s old new).writes ≤ 1 := by
  unfold async_power_sensor_changed
  cases new with
  | none => exact Nat.zero_le 1
  | some n =>
    dsimp only
    split
    · exact Nat.zero_le 1
    · by_cases h1 : n = "on" ∧ s.speed = some "off"
      · rw [if_pos h1]
        rw [if_neg (show ¬ n = "off" by rw [h1.1]; decide)]
      · rw [if_neg h1]
        split <;> simp

theorem power_speed_cases (s : FanState) (old new : Option String) :
    (async_power_sensor_changed s old new).state.speed = s.speed ∨
    (async_power_sensor_changed s old new).state.speed = none ∨
    (async_power_sensor_changed s old new).state.speed = some "off" := by
  unfold async_power_sensor_changed
  cases new with
  | none => left; rfl
  | some n =>
    dsimp only
    split
    · left; rfl
    · by_cases h1 : n = "on" ∧ s.speed = some "off"
      · rw [if_pos h1]
        split
        · right; right; rfl
        · right; left; rfl
      · rw [if_neg h1]
        split
        · right; right
          dsimp only
          split
          · assumption
          · rfl
        · left; rfl

/-! Speed values of restored attributes. -/

theorem restore_speed (cmds : CmdTable) (s : FanState) (a : RestoredAttrs) :
    (async_added_to_hass cmds s (some a)).speed =
      match a.speed with
      | some v => v
      | none => s.speed := by
  obtain ⟨asp, adir, alast⟩ := a
  unfold async_added_to_hass
  cases asp <;> cases adir <;> cases alast <;> dsimp only <;> first
    | rfl
    | (split <;> rfl)

/-! The data-model invariant, amended to admit the `None` speed that a remote
power-on writes. -/

theorem good_asp (cmds : CmdTable) (speeds : List String) (ok : Bool) (s : FanState)
    (p : Nat) (h : goodSpeed speeds s.speed) :
    goodSpeed speeds (async_set_percentage cmds speeds ok s p).state.speed := by
  cases hm : (if p = 0 then some "off" else percentage_to_ordered_list_item speeds p) with
  | none =>
    rw [asp_fail cmds speeds ok s p hm]
    exact h
  | some nm =>
    have hg : goodSpeed speeds (some nm) := by
      by_cases hp : p = 0
      · rw [if_pos hp] at hm
        cases hm
        right; left; rfl
      · rw [if_neg hp] at hm
        exact Or.inr (Or.inr ⟨nm, p2item_mem speeds p nm hm, rfl⟩)
    rw [asp_state cmds speeds ok s p nm hm]
    split <;> exact hg

theorem good_reach (cmds : CmdTable) (speeds : List String) (s : FanState)
    (h : Reach cmds speeds s) : goodSpeed speeds s.speed := by
  induction h with
  | init => right; left; rfl
  | restore s a _ hgood ih =>
    rw [restore_speed]
    cases hsp : a.speed with
    | some v =>
      have : GoodAttrs speeds a := hgood
      unfold GoodAttrs at this
      rw [hsp] at this
      exact this
    | none => exact ih
  | setPct s ok p _ ih => exact good_asp cmds speeds ok s p ih
  | osc s ok b _ ih =>
    rw [osc_state]
    exact ih
  | setDir s ok d _ ih =>
    rw [setdir_state_speed]
    exact ih
  | turnOn s ok pct _ ih =>
    unfold async_turn_on
    cases pct with
    | some p => exact good_asp cmds speeds ok s p ih
    | none =>
      dsimp only
      cases h1 : pyOrStr s.lastOnSpeed speeds.head? with
      | none => exact ih
      | some item =>
        dsimp only
        cases h2 : ordered_list_item_to_percentage speeds item with
        | none => exact ih
        | some p => exact good_asp cmds speeds ok s p ih
  | turnOff s ok _ ih => exact good_asp cmds speeds ok s 0 ih
  | power s old new _ ih =>
    rcases power_speed_cases s old new with h | h | h
    · rw [h]; exact ih
    · rw [h]; left; rfl
    · rw [h]; right; left; rfl

/-! Remaining helper facts used by the claim theorems. -/

theorem p2item_of_bucketFind (l : List String) (hl : l ≠ []) (p : Nat) (x : String)
    (h : bucketFind l.length p l 0 = some x) :
    percentage_to_ordered_list_item l p = some x := by
  cases l with
  | nil => exact absurd rfl hl
  | cons a as =>
    unfold percentage_to_ordered_list_item
    rw [h]

theorem setdir_state (cmds : CmdTable) (ok : Bool) (s : FanState) (d : String) :
    (async_set_direction cmds ok s d).state =
      match s.speed with
      | none => { s with direction := some d }
      | some sp =>
        if strLower sp = "off" then { s with direction := some d }
        else { s with direction := some d, onByRemote := false } := by
  obtain ⟨ssp, sdir, slo, sosc, srem⟩ := s
  unfold async_set_direction
  cases ssp with
  | none => rfl
  | some sp =>
    dsimp only
    split
    · rfl
    · rw [write_after_state, send_command_state]

/-! Claim C1.  The selection priority of `send_command`.  As frozen the claim
compares the current speed with the off sentinel by string equality, but the
code compares `speed.lower()` with the sentinel, so a speed such as "OFF"
takes the off branch even when the oscillation flag is set.  The amended
statement uses the case-insensitive comparison. -/

/-- C1 counterexample: with current speed "OFF" (not equal to the sentinel
"off") and the oscillation flag true, the claim picks the profile's oscillate
command, but the code sends the off command. -/
theorem C1_counterexample :
    (mkState (some "OFF") none none (some true) false).speed = some "OFF" ∧
    ¬ (some "OFF" : Option String) = some "off" ∧
    (mkState (some "OFF") none none (some true) false).oscillating = some true ∧
    alookup cmds3 "oscillate" = some (CmdVal.payload "cmd_osc") ∧
    (send_command cmds3 true (mkState (some "OFF") none none (some true) false)).sent =
      [CmdVal.payload "cmd_off"] ∧
    ¬ (send_command cmds3 true (mkState (some "OFF") none none (some true) false)).sent =
      [CmdVal.payload "cmd_osc"] := by
  decide

/-- C1 (amended): `send_command` resolves exactly one command by priority:
the profile's off command when the lowercased current speed equals the off
sentinel; else the oscillate command when the oscillation flag is true,
regardless of speed and direction; else `commands[d][speed]` where `d` is the
current direction when one is set (non-empty) and the literal "default" when
none is set. -/
theorem C1_send_priority (cmds : CmdTable) (ok : Bool) (s : FanState) (sp : String)
    (h : s.speed = some sp) :
    (strLower sp = "off" →
      (send_command cmds ok s).sent = (alookup cmds "off").toList) ∧
    (¬ strLower sp = "off" → s.oscillating = some true →
      (send_command cmds ok s).sent = (alookup cmds "oscillate").toList) ∧
    (¬ strLower sp = "off" → ¬ s.oscillating = some true →
      ∀ d, s.direction = some d → ¬ d = "" →
      (send_command cmds ok s).sent = (nested_lookup cmds d sp).toList) ∧
    (¬ strLower sp = "off" → ¬ s.oscillating = some true → s.direction = none →
      (send_command cmds ok s).sent = (nested_lookup cmds "default" sp).toList) := by
  rw [send_command_sent]
  unfold resolve_command
  rw [h]
  dsimp only
  refine ⟨?_, ?_, ?_, ?_⟩
  · intro h1
    rw [if_pos h1]
  · intro h1 h2
    rw [if_neg h1, if_pos h2]
  · intro h1 h2 d h3 h4
    rw [if_neg h1, if_neg h2, h3]
    unfold pyDirection
    dsimp only
    rw [if_neg h4]
  · intro h1 h2 h3
    rw [if_neg h1, if_neg h2, h3]
    rfl

/-- C1 witness: a fan at speed "low" with the oscillation flag set sends the
profile's oscillate command. -/
theorem C1_send_priority_witness :
    (send_command cmds3 true (mkState (some "low") none none (some true) false)).sent =
      (alookup cmds3 "oscillate").toList :=
  (C1_send_priority cmds3 true (mkState (some "low") none none (some true) false) "low"
      rfl).2.1 (by decide) rfl

/-! Claim C2.  The claimed invariant "speed is the off sentinel or a name from
the speed list" fails: a power-sensor ON event while the fan is off sets
`self._speed = None`, which is neither.  The amended invariant adds the `None`
(unknown) value, and restricts restored attributes to well-formed speeds. -/

/-- C2 counterexample: from the initial state, one power-sensor ON event
reaches a state whose speed is `None` — neither the off sentinel nor a name
from the speed list. -/
theorem C2_counterexample :
    Reach cmds3 speeds3 (mkState none none none (some false) true) ∧
    ¬ ((mkState none none none (some false) true).speed = some "off" ∨
       ∃ x, x ∈ speeds3 ∧ (mkState none none none (some false) true).speed = some x) := by
  constructor
  · have h : Reach cmds3 speeds3
        (async_power_sensor_changed (initState cmds3) none (some "on")).state :=
      Reach.power (initState cmds3) none (some "on") Reach.init
    have e : (async_power_sensor_changed (initState cmds3) none (some "on")).state =
        mkState none none none (some false) true := by decide
    exact e ▸ h
  · decide

/-- C2 (amended): in every state reachable from the initial state by
restores of well-formed attributes, the fan operations, and power-sensor
events, the speed is `None` (unknown, set by a remote power-on), the off
sentinel, or a name from the profile's speed list. -/
theorem C2_speed_invariant (cmds : CmdTable) (speeds : List String) (s : FanState)
    (h : Reach cmds speeds s) : goodSpeed speeds s.speed :=
  good_reach cmds speeds s h

/-- C2 witness: the invariant holds at the initial state of the three-speed
profile. -/
theorem C2_speed_invariant_witness : goodSpeed speeds3 (initState cmds3).speed :=
  C2_speed_invariant cmds3 speeds3 (initState cmds3) Reach.init

/-! Claim C4.  A power-sensor ON event while the local speed is off moves to
the on-by-remote state with an unknown speed and sends nothing — but only
when the event actually reports a change: when the old reported state is
already ON the deduplication guard makes the handler a no-op, so the claim
as frozen fails on such events. -/

/-- C4 counterexample: with the local speed off, an ON event whose old state
is also ON leaves the state unchanged — `on_by_remote` stays false instead of
becoming true. -/
theorem C4_counterexample :
    (initState cmds3).speed = some "off" ∧
    (async_power_sensor_changed (initState cmds3) (some "on") (some "on")).state =
      initState cmds3 ∧
    (initState cmds3).onByRemote = false := by
  decide

/-- C4 (amended): when the local speed is the off sentinel and the event's old
reported state is not already ON, a power-sensor ON event sets the
on-by-remote flag, makes the speed `None` (not off, not any name), sends no
command, and writes state once. -/
theorem C4_power_on_remote (s : FanState) (old : Option String)
    (h1 : s.speed = some "off") (h2 : ¬ old = some "on") :
    (async_power_sensor_changed s old (some "on")).state =
      { s with onByRemote := true, speed := none } ∧
    (async_power_sensor_changed s old (some "on")).state.onByRemote = true ∧
    (∀ x : String, ¬ (async_power_sensor_changed s old (some "on")).state.speed = some x) ∧
    (async_power_sensor_changed s old (some "on")).sent = [] ∧
    (async_power_sensor_changed s old (some "on")).writes = 1 := by
  rw [power_on s old h1 h2]
  refine ⟨rfl, rfl, ?_, rfl, rfl⟩
  intro x hx
  exact Option.noConfusion hx

/-- C4 witness: from the initial state and an ON event with no old state the
fan moves to the on-by-remote state with unknown speed. -/
theorem C4_power_on_remote_witness :
    (async_power_sensor_changed (initState cmds3) none (some "on")).state =
      { initState cmds3 with onByRemote := true, speed := none } ∧
    (async_power_sensor_changed (initState cmds3) none (some "on")).state.onByRemote = true ∧
    (∀ x : String,
      ¬ (async_power_sensor_changed (initState cmds3) none (some "on")).state.speed = some x) ∧
    (async_power_sensor_changed (initState cmds3) none (some "on")).sent = [] ∧
    (async_power_sensor_changed (initState cmds3) none (some "on")).writes = 1 :=
  C4_power_on_remote (initState cmds3) none rfl (by decide)

/-! Claim C5.  A power-sensor OFF event forces the off sentinel and clears the
on-by-remote flag — again only when the event reports a change: when the old
reported state is already OFF the deduplication guard makes it a no-op, so
the claim as frozen ("for every prior local state, a power-sensor event
reporting OFF forces...") fails on such events. -/

/-- C5 counterexample: a fan running at "high" receives an OFF event whose
old state is also OFF; the handler is a no-op and the speed stays "high"
instead of being forced to the off sentinel. -/
theorem C5_counterexample :
    (async_power_sensor_changed (mkState (some "high") none (some "high") none false)
      (some "off") (some "off")).state.speed = some "high" ∧
    ¬ (some "high" : Option String) = some "off" := by
  decide

/-- C5 (amended): for every prior local state, a power-sensor OFF event whose
old reported state is not already OFF forces the speed to the off sentinel,
clears the on-by-remote flag, sends nothing, and writes state once. -/
theorem C5_power_off_forces_off (s : FanState) (old : Option String)
    (h : ¬ old = some "off") :
    (async_power_sensor_changed s old (some "off")).state =
      { s with speed := some "off", onByRemote := false } ∧
    (async_power_sensor_changed s old (some "off")).state.speed = some "off" ∧
    (async_power_sensor_changed s old (some "off")).state.onByRemote = false ∧
    (async_power_sensor_changed s old (some "off")).sent = [] ∧
    (async_power_sensor_changed s old (some "off")).writes = 1 := by
  obtain ⟨h1, h2, h3, _⟩ := power_off s old h
  rw [h1]
  exact ⟨rfl, rfl, rfl, h3, h2⟩

/-- C5 witness: an OFF event (no old state) received while running at "high"
with the on-by-remote flag set forces the off sentinel and clears the flag. -/
theorem C5_power_off_forces_off_witness :
    (async_power_sensor_changed (mkState (some "high") none (some "high") none true)
      none (some "off")).state =
      { mkState (some "high") none (some "high") none true with
        speed := some "off", onByRemote := false } ∧
    (async_power_sensor_changed (mkState (some "high") none (some "high") none true)
      none (some "off")).state.speed = some "off" ∧
    (async_power_sensor_changed (mkState (some "high") none (some "high") none true)
      none (some "off")).state.onByRemote = false ∧
    (async_power_sensor_changed (mkState (some "high") none (some "high") none true)
      none (some "off")).sent = [] ∧
    (async_power_sensor_changed (mkState (some "high") none (some "high") none true)
      none (some "off")).writes = 1 :=
  C5_power_off_forces_off (mkState (some "high") none (some "high") none true) none
    (by decide)

/-- C6 (confirmed): a power-sensor event whose new reported state equals the
old reported state is a no-op — the fan state is unchanged, nothing is sent,
and no state write happens; hence two consecutive events reporting the same
resulting state produce at most the first event's single write. -/
theorem C6_dup_event_noop (s : FanState) (o : String) (old : Option String) :
    (async_power_sensor_changed s (some o) (some o)).state = s ∧
    (async_power_sensor_changed s (some o) (some o)).writes = 0 ∧
    (async_power_sensor_changed s (some o) (some o)).sent = [] ∧
    (async_power_sensor_changed
      (async_power_sensor_changed s old (some o)).state (some o) (some o)).writes = 0 ∧
    (async_power_sensor_changed s old (some o)).writes +
      (async_power_sensor_changed
        (async_power_sensor_changed s old (some o)).state (some o) (some o)).writes ≤ 1 := by
  have hA := power_dup s (some o) o rfl
  have hB := power_dup (async_power_sensor_changed s old (some o)).state (some o) o rfl
  rw [hA, hB]
  refine ⟨rfl, rfl, rfl, rfl, ?_⟩
  have := power_writes_le_one s old (some o)
  simpa using this

/-- C7 (confirmed): when command resolution succeeds, a controller error in
`send` is caught and logged: the operation does not raise, the command was
attempted, the mutated state is kept (not rolled back), and the resulting
state of every sending operation is the same as with a succeeding
controller. -/
theorem C7_send_failure_swallowed (cmds : CmdTable) (speeds : List String) (s : FanState)
    (c : CmdVal) (h : resolve_command cmds s = some c) :
    (send_command cmds false s).raised = false ∧
    (send_command cmds false s).sent = [c] ∧
    (send_command cmds false s).logged = 1 ∧
    (send_command cmds false s).state = { s with onByRemote := false } ∧
    (send_command cmds false s).state = (send_command cmds true s).state ∧
    (∀ p, (async_set_percentage cmds speeds false s p).state =
      (async_set_percentage cmds speeds true s p).state) ∧
    (∀ b, (async_oscillate cmds false s b).state = (async_oscillate cmds true s b).state) ∧
    (∀ d, (async_set_direction cmds false s d).state =
      (async_set_direction cmds true s d).state) := by
  refine ⟨?_, ?_, ?_, ?_, ?_, ?_, ?_, ?_⟩
  · rw [send_command_raised, h]
    rfl
  · rw [send_command_sent, h]
    rfl
  · unfold send_command
    rw [resolve_drop_remote, h]
    rfl
  · rw [send_command_state]
  · rw [send_command_state, send_command_state]
  · intro p
    cases hm : (if p = 0 then some "off" else percentage_to_ordered_list_item speeds p) with
    | none => rw [asp_fail cmds speeds false s p hm, asp_fail cmds speeds true s p hm]
    | some nm => rw [asp_state cmds speeds false s p nm hm, asp_state cmds speeds true s p nm hm]
  · intro b
    rw [osc_state, osc_state]
  · intro d
    rw [setdir_state, setdir_state]

/-- C7 witness: with the three-speed profile in the initial (off) state, a
failing controller send is logged once, nothing propagates, and the state
matches the succeeding-controller run. -/
theorem C7_send_failure_swallowed_witness :
    (send_command cmds3 false (initState cmds3)).raised = false ∧
    (send_command cmds3 false (initState cmds3)).sent = [CmdVal.payload "cmd_off"] ∧
    (send_command cmds3 false (initState cmds3)).logged = 1 ∧
    (send_command cmds3 false (initState cmds3)).state =
      { initState cmds3 with onByRemote := false } ∧
    (send_command cmds3 false (initState cmds3)).state =
      (send_command cmds3 true (initState cmds3)).state ∧
    (∀ p, (async_set_percentage cmds3 speeds3 false (initState cmds3) p).state =
      (async_set_percentage cmds3 speeds3 true (initState cmds3) p).state) ∧
    (∀ b, (async_oscillate cmds3 false (initState cmds3) b).state =
      (async_oscillate cmds3 true (initState cmds3) b).state) ∧
    (∀ d, (async_set_direction cmds3 false (initState cmds3) d).state =
      (async_set_direction cmds3 true (initState cmds3) d).state) :=
  C7_send_failure_swallowed cmds3 speeds3 (initState cmds3) (CmdVal.payload "cmd_off")
    (by decide)

/-- C10 (confirmed): calling oscillate while the current speed is the off
sentinel records the flag but sends the profile's off command (the off branch
precedes the oscillation branch), not the oscillate command; and every pass
through `send_command` clears the on-by-remote flag. -/
theorem C10_oscillate_while_off (cmds : CmdTable) (ok : Bool) (s : FanState) (b : Bool)
    (c : CmdVal) (h1 : s.speed = some "off") (h2 : alookup cmds "off" = some c) :
    (async_oscillate cmds ok s b).state.oscillating = some b ∧
    (async_oscillate cmds ok s b).sent = [c] ∧
    (∀ cOsc, alookup cmds "oscillate" = some cOsc → ¬ cOsc = c →
      ¬ (async_oscillate cmds ok s b).sent = [cOsc]) ∧
    (∀ t : FanState, ∀ ok2 : Bool, (send_command cmds ok2 t).state.onByRemote = false) := by
  have hsent : (async_oscillate cmds ok s b).sent = [c] := by
    rw [osc_sent]
    unfold resolve_command
    have e : ({ s with oscillating := some b } : FanState).speed = some "off" := h1
    rw [e]
    dsimp only
    rw [if_pos (show strLower "off" = "off" by decide), h2]
    rfl
  refine ⟨?_, hsent, ?_, ?_⟩
  · rw [osc_state]
  · intro cOsc hosc hne hcontra
    rw [hsent] at hcontra
    have : cOsc = c := (List.cons.injEq _ _ _ _).mp hcontra.symm |>.1
    exact hne this
  · intro t ok2
    rw [send_command_state]

/-- C10 witness: oscillate(true) on the three-speed profile while off keeps
the off command, records the flag, and send_command clears the remote flag. -/
theorem C10_oscillate_while_off_witness :
    (async_oscillate cmds3 true (initState cmds3) true).state.oscillating = some true ∧
    (async_oscillate cmds3 true (initState cmds3) true).sent = [CmdVal.payload "cmd_off"] ∧
    (∀ cOsc, alookup cmds3 "oscillate" = some cOsc → ¬ cOsc = CmdVal.payload "cmd_off" →
      ¬ (async_oscillate cmds3 true (initState cmds3) true).sent = [cOsc]) ∧
    (∀ t : FanState, ∀ ok2 : Bool, (send_command cmds3 ok2 t).state.onByRemote = false) :=
  C10_oscillate_while_off cmds3 true (initState cmds3) true (CmdVal.payload "cmd_off")
    rfl (by decide)

/-- C8 (confirmed): turn_on without a percentage resumes at the recorded
last non-off speed when one exists, otherwise at the first entry of the speed
list, and then behaves exactly as set_percentage of the corresponding
percentage; on the three-speed profile, no prior last speed resolves to "low"
and a recorded "high" resolves to "high". -/
theorem C8_turn_on_resume (cmds : CmdTable) (speeds : List String) (ok : Bool) (s : FanState) :
    (∀ l, s.lastOnSpeed = some l → ¬ l = "" → l ∈ speeds →
      ∃ p, ordered_list_item_to_percentage speeds l = some p ∧
        async_turn_on cmds speeds ok s none = async_set_percentage cmds speeds ok s p) ∧
    (s.lastOnSpeed = none → ∀ x, speeds.head? = some x →
      ∃ p, ordered_list_item_to_percentage speeds x = some p ∧
        async_turn_on cmds speeds ok s none = async_set_percentage cmds speeds ok s p) ∧
    (async_turn_on cmds3 speeds3 true (mkState (some "off") none none none false)
      none).state.speed = some "low" ∧
    (async_turn_on cmds3 speeds3 true (mkState (some "off") none (some "high") none false)
      none).state.speed = some "high" := by
  refine ⟨?_, ?_, by decide, by decide⟩
  · intro l h1 h2 h3
    obtain ⟨i, _, _, _, ho2p⟩ := o2p_of_mem speeds l h3
    refine ⟨(i + 1) * 100 / speeds.length, ho2p, ?_⟩
    unfold async_turn_on
    dsimp only
    rw [h1]
    unfold pyOrStr
    dsimp only
    rw [if_neg h2]
    dsimp only
    rw [ho2p]
  · intro h1 x hx
    have hmem : x ∈ speeds := by
      cases speeds with
      | nil => exact absurd hx (by simp)
      | cons a as =>
        have : a = x := by simpa using hx
        rw [← this]
        exact List.mem_cons_self a as
    obtain ⟨i, _, _, _, ho2p⟩ := o2p_of_mem speeds x hmem
    refine ⟨(i + 1) * 100 / speeds.length, ho2p, ?_⟩
    unfold async_turn_on
    dsimp only
    rw [h1]
    unfold pyOrStr
    dsimp only
    rw [hx]
    dsimp only
    rw [ho2p]

/-- C8 witness: on the three-speed profile with recorded last speed "high",
turn_on with no percentage equals set_percentage of the percentage of
"high". -/
theorem C8_turn_on_resume_witness :
    ∃ p, ordered_list_item_to_percentage speeds3 "high" = some p ∧
      async_turn_on cmds3 speeds3 true (mkState (some "off") none (some "high") none false)
        none =
      async_set_percentage cmds3 speeds3 true
        (mkState (some "off") none (some "high") none false) p :=
  (C8_turn_on_resume cmds3 speeds3 true
    (mkState (some "off") none (some "high") none false)).1 "high" rfl (by decide) (by decide)

/-! Claim C9.  Setting the direction while off only records the direction and
sends nothing; the next activation resolves with the new direction.  The
second sentence of the frozen claim ("if the current speed is not off,
set_direction re-sends a command") fails for a speed such as "OFF": it is not
the off sentinel, yet the lowercased comparison in the code routes it to the
no-send branch.  The amended claim makes the re-send condition the
case-insensitive one. -/

/-- C9 counterexample: at speed "OFF" (not the off sentinel), set_direction
sends nothing, although the frozen claim requires a re-send for every non-off
speed. -/
theorem C9_counterexample :
    ¬ (mkState (some "OFF") none none none false).speed = some "off" ∧
    (async_set_direction cmds3 true (mkState (some "OFF") none none none false)
      "forward").sent = [] ∧
    (async_set_direction cmds3 true (mkState (some "OFF") none none none false)
      "forward").writes = 1 := by
  decide

/-- C9 (amended): while the lowercased current speed is the off sentinel,
set_direction updates only the stored direction, sends nothing, and writes
state once; when it is not, the resolved command for the updated state is
sent; and a following activation at a non-zero percentage resolves its
command through the updated direction's table. -/
theorem C9_set_direction (cmds : CmdTable) (speeds : List String) (ok : Bool) (s : FanState)
    (d : String) (sp : String) (h : s.speed = some sp) :
    (strLower sp = "off" →
      async_set_direction cmds ok s d =
        { state := { s with direction := some d }, sent := [], writes := 1, logged := 0,
          raised := false }) ∧
    (¬ strLower sp = "off" →
      (async_set_direction cmds ok s d).sent =
        (resolve_command cmds { s with direction := some d }).toList) ∧
    (∀ p nm, ¬ p = 0 → percentage_to_ordered_list_item speeds p = some nm →
      ¬ strLower nm = "off" → ¬ s.oscillating = some true → ¬ d = "" →
      (async_set_percentage cmds speeds ok { s with direction := some d } p).sent =
        (nested_lookup cmds d nm).toList) := by
  refine ⟨?_, ?_, ?_⟩
  · intro h1
    exact setdir_off cmds ok s d sp h h1
  · intro h1
    exact setdir_on_sent cmds ok s d sp h h1
  · intro p nm hp hnm hnoff hosc hd
    have hm : (if p = 0 then some "off" else percentage_to_ordered_list_item speeds p) =
        some nm := by
      rw [if_neg hp]
      exact hnm
    rw [asp_sent cmds speeds ok { s with direction := some d } p nm hm]
    unfold resolve_command
    dsimp only
    rw [if_neg hnoff, if_neg hosc]
    unfold pyDirection
    dsimp only
    rw [if_neg hd]

/-- C9 witness: setting direction "forward" while off on the three-speed
profile records the direction, sends nothing, writes once. -/
theorem C9_set_direction_witness :
    async_set_direction cmds3 true (mkState (some "off") none none none false) "forward" =
      { state := { mkState (some "off") none none none false with
          direction := some "forward" },
        sent := [], writes := 1, logged := 0, raised := false } :=
  (C9_set_direction cmds3 speeds3 true (mkState (some "off") none none none false)
    "forward" "off" rfl).1 (by decide)

/-! Claim C3.  The percentage/named-speed round trip.  As frozen it is claimed
for every non-empty speed list, but it fails once a bucket bound collapses to
0: with more than 100 entries the first entry's percentage is 0, which
set_percentage interprets as "off".  It also needs distinct names (the
item-to-percentage step takes the first occurrence) and a list that does not
itself contain the sentinel "off".  The amended claim adds these bounds. -/

/-- C3 counterexample: on a 101-entry speed list the name "a" (index 0)
converts to percentage 0, and converting 0 back (as set_percentage does)
yields the off sentinel, not "a". -/
theorem C3_counterexample :
    "a" ∈ speeds101 ∧
    percentage speeds101 (mkState (some "a") none none none false) = some 0 ∧
    (async_set_percentage cmds3 speeds101 true (mkState (some "a") none none none false)
      0).state.speed = some "off" ∧
    ¬ ("off" : String) = "a" := by
  decide

/-- C3 (amended): for a speed list of at most 100 pairwise-distinct names not
containing the off sentinel: converting any listed name to a percentage (as
the percentage property does) gives a non-zero percentage that set_percentage
converts back to the same name; and for every percentage p in [1,100],
set_percentage lands on some name whose percentage converts back (through a
second set_percentage) to that very name — round-trip stability within p's
bucket. -/
theorem C3_percentage_roundtrip (cmds : CmdTable) (speeds : List String) (ok : Bool)
    (h1 : speeds ≠ []) (h2 : speeds.length ≤ 100) (h3 : speeds.Nodup)
    (h4 : "off" ∉ speeds) :
    (∀ s nm, s.speed = some nm → nm ∈ speeds →
      ∃ p, percentage speeds s = some p ∧ ¬ p = 0 ∧
        (async_set_percentage cmds speeds ok s p).state.speed = some nm) ∧
    (∀ s t p, 1 ≤ p → p ≤ 100 →
      ∃ nm q, (async_set_percentage cmds speeds ok s p).state.speed = some nm ∧
        percentage speeds (async_set_percentage cmds speeds ok s p).state = some q ∧
        (async_set_percentage cmds speeds ok t q).state.speed = some nm) := by
  constructor
  · intro s nm hs hmem
    have hnoff : ¬ nm = "off" := fun he => h4 (he ▸ hmem)
    obtain ⟨i, hidx, hget, hlt, ho2p⟩ := o2p_of_mem speeds nm hmem
    obtain ⟨hrt, hpos⟩ := p2item_roundtrip speeds i hlt h2
    refine ⟨(i + 1) * 100 / speeds.length, ?_, by omega, ?_⟩
    · unfold percentage
      rw [hs]
      dsimp only
      rw [if_neg hnoff]
      exact ho2p
    · have hm : (if ((i + 1) * 100 / speeds.length) = 0 then some "off"
          else percentage_to_ordered_list_item speeds ((i + 1) * 100 / speeds.length)) =
          some nm := by
        rw [if_neg (by omega)]
        rw [hrt, hget]
      rw [asp_state cmds speeds ok s ((i + 1) * 100 / speeds.length) nm hm]
      split <;> rfl
  · intro s t p hp1 hp100
    have hn : 0 < speeds.length := List.length_pos.mpr h1
    have hex : ∃ k, p ≤ (k + 1) * 100 / speeds.length := by
      refine ⟨speeds.length - 1, ?_⟩
      have e : speeds.length - 1 + 1 = speeds.length := by omega
      rw [e, bucket_bound_top speeds.length hn]
      exact hp100
    have hK : Nat.find hex < speeds.length := by
      have hle : Nat.find hex ≤ speeds.length - 1 := by
        apply Nat.find_min' hex
        have e : speeds.length - 1 + 1 = speeds.length := by omega
        rw [e, bucket_bound_top speeds.length hn]
        exact hp100
      omega
    have hfind : bucketFind speeds.length p speeds 0 = speeds[Nat.find hex]? := by
      apply bucketFind_first speeds speeds.length p 0 (Nat.find hex) hK
      · intro j hj
        have hmin := Nat.find_min hex hj
        have e : 0 + j + 1 = j + 1 := by omega
        rw [e]
        exact hmin
      · have hspec := Nat.find_spec hex
        have e : 0 + Nat.find hex + 1 = Nat.find hex + 1 := by omega
        rw [e]
        exact hspec
    have hgetK : speeds[Nat.find hex]? = some speeds[Nat.find hex] :=
      List.getElem?_eq_getElem hK
    have hp2 : percentage_to_ordered_list_item speeds p = some speeds[Nat.find hex] :=
      p2item_of_bucketFind speeds h1 p _ (hfind.trans hgetK)
    have hmem : speeds[Nat.find hex] ∈ speeds := p2item_mem speeds p _ hp2
    have hnoff : ¬ speeds[Nat.find hex] = "off" := fun he => h4 (he ▸ hmem)
    obtain ⟨i, hidx, hget, hlt, ho2p⟩ := o2p_of_mem speeds (speeds[Nat.find hex]) hmem
    have hiK : i = Nat.find hex := List.getElem?_inj hlt h3 (hget.trans hgetK.symm)
    subst hiK
    have hm : (if p = 0 then some "off" else percentage_to_ordered_list_item speeds p) =
        some speeds[Nat.find hex] := by
      rw [if_neg (by omega)]
      exact hp2
    refine ⟨speeds[Nat.find hex], (Nat.find hex + 1) * 100 / speeds.length, ?_, ?_, ?_⟩
    · rw [asp_state cmds speeds ok s p _ hm]
      split <;> rfl
    · rw [asp_state cmds speeds ok s p _ hm]
      rw [if_neg hnoff]
      unfold percentage
      dsimp only
      rw [if_neg hnoff]
      exact ho2p
    · obtain ⟨hrtB, hposB⟩ := p2item_roundtrip speeds (Nat.find hex) hlt h2
      have hmq : (if ((Nat.find hex + 1) * 100 / speeds.length) = 0 then some "off"
          else percentage_to_ordered_list_item speeds
            ((Nat.find hex + 1) * 100 / speeds.length)) = some speeds[Nat.find hex] := by
        rw [if_neg (by omega), hrtB, hget]
      rw [asp_state cmds speeds ok t _ _ hmq]
      split <;> rfl

/-- C3 witness: on the three-speed profile the name "medium" converts to a
non-zero percentage and back to "medium". -/
theorem C3_percentage_roundtrip_witness :
    ∃ p, percentage speeds3 (mkState (some "medium") none none none false) = some p ∧
      ¬ p = 0 ∧
      (async_set_percentage cmds3 speeds3 true (mkState (some "medium") none none none false)
        p).state.speed = some "medium" :=
  (C3_percentage_roundtrip cmds3 speeds3 true (by decide) (by decide) (by decide)
    (by decide)).1 (mkState (some "medium") none none none false) "medium" rfl (by decide)
